import Mathlib

/-!
Verification of the nodeport-router repository: a Kubernetes controller that
mirrors NodePort services onto a consumer router's port-forwarding table by
scraping and posting to the router's HTML administration console.

The development shallowly embeds the Go source:
  * `router/scraping.go` — HTML-tree utilities and the nonce extractor;
  * `router/router.go`   — `GetForwards`, `AddForward`, `DeleteForward`,
    `doRequest` (network effects become an explicit trace of HTTP operations,
    and the pages the router serves become explicit inputs);
  * `controller/controller.go` — `affectedForwards`, `nodePortsChanged`,
    `handleServiceAdd`, `handleServiceUpdate`, `handleServiceDelete` (router
    mutation calls become an explicit trace, and the outcome of each router
    call is supplied by an oracle function, since it depends on the network).
-/

/-! ## HTML document model

Embeds the subset of `golang.org/x/net/html`'s node tree that the repository's
tree-walking helpers inspect: element nodes (tag, attributes, children) and
text nodes.  Document/comment nodes behave, for every helper below, exactly
like an element whose tag matches no query, so a root element covers them. -/

structure HAttr where
  key : String
  val : String
deriving Repr, DecidableEq

inductive HNode where
  | elem (tag : String) (attrs : List HAttr) (children : List HNode)
  | text (s : String)
deriving Repr

/-- Does the attribute list carry `key="val"`? (the `for _, attr := range n.Attr`
loops of `scraping.go`). -/
def hasAttr (attrs : List HAttr) (key val : String) : Bool :=
  attrs.any (fun a => a.key == key && a.val == val)

mutual

/-- Embeds `findTableByClass` (scraping.go): first `<table>` node, in document
order, whose `class` attribute equals `cls` exactly. -/
def findTableByClass : HNode → String → Option HNode
  | HNode.text _, _ => none
  | HNode.elem tag attrs children, cls =>
    if tag == "table" && hasAttr attrs "class" cls then
      some (HNode.elem tag attrs children)
    else
      findTableByClassList children cls

def findTableByClassList : List HNode → String → Option HNode
  | [], _ => none
  | c :: cs, cls =>
    match findTableByClass c cls with
    | some r => some r
    | none => findTableByClassList cs cls

end

mutual

/-- Embeds `findElementByAttr` (scraping.go): first element, in document order,
carrying attribute `attribute="value"`. -/
def findElementByAttr : HNode → String → String → Option HNode
  | HNode.text _, _, _ => none
  | HNode.elem tag attrs children, attrKey, value =>
    if hasAttr attrs attrKey value then
      some (HNode.elem tag attrs children)
    else
      findElementByAttrList children attrKey value

def findElementByAttrList : List HNode → String → String → Option HNode
  | [], _, _ => none
  | c :: cs, attrKey, value =>
    match findElementByAttr c attrKey value with
    | some r => some r
    | none => findElementByAttrList cs attrKey value

end

/-- Embeds `findElementByID` (scraping.go); its body is the attribute walk of
`findElementByAttr` specialised to the `id` attribute. -/
def findElementByID (n : HNode) (id : String) : Option HNode :=
  findElementByAttr n "id" id

mutual

/-- Embeds `findElements` (scraping.go): all elements with the given tag, in
document order, not recursing into a found element's children. -/
def findElements : HNode → String → List HNode
  | HNode.text _, _ => []
  | HNode.elem tag attrs children, target =>
    if tag == target then [HNode.elem tag attrs children]
    else findElementsList children target

def findElementsList : List HNode → String → List HNode
  | [], _ => []
  | c :: cs, target => findElements c target ++ findElementsList cs target

end

/-- The `name`-attribute harvest of `getTextContent`'s `input` branch
(scraping.go): concatenation of every `name` attribute value. -/
def inputNames (attrs : List HAttr) : String :=
  attrs.foldl (fun acc a => if a.key == "name" then acc ++ a.val else acc) ""

mutual

/-- Embeds `getTextContent` (scraping.go): concatenated text content, except
that a child `input` element contributes its `name` attribute values (the
delete identifier embedded in a listing row's delete button) instead of being
recursed into. -/
def getTextContent : HNode → String
  | HNode.text s => s
  | HNode.elem _ _ children => getTextContentList children

def getTextContentList : List HNode → String
  | [] => ""
  | HNode.elem "input" attrs _ :: cs =>
    inputNames attrs ++ getTextContentList cs
  | HNode.text s :: cs => getTextContent (HNode.text s) ++ getTextContentList cs
  | HNode.elem tag attrs children :: cs =>
    getTextContent (HNode.elem tag attrs children) ++ getTextContentList cs

end

/-! ## Nonce extraction

Embeds `extractNonce` (scraping.go): the Go regular expression
`name="nonce"[^>]*value="([^"]+)"` with Go's leftmost, greedy-with-backtracking
match semantics, implemented over the character list of the raw page body. -/

/-- Match `value="([^"]+)"` at the head of `l`: the literal, then a maximal
nonempty run of non-quote characters, then the closing quote. -/
def matchValueAt (l : List Char) : Option String :=
  let pat := "value=\"".data
  if pat.isPrefixOf l then
    let rest := l.drop pat.length
    let cap := rest.takeWhile (fun c => c != '"')
    if cap.isEmpty then none
    else
      match (rest.drop cap.length).head? with
      | some c => if c == '"' then some (String.mk cap) else none
      | none => none
  else none

/-- Greedy `[^>]*`: try the longest prefix of non-`>` characters first and
backtrack towards the empty prefix until `value="..."` matches. -/
def tryPreLens (rest : List Char) : Nat → Option String
  | 0 => matchValueAt rest
  | n + 1 =>
    match matchValueAt (rest.drop (n + 1)) with
    | some s => some s
    | none => tryPreLens rest n

/-- Match the whole pattern at the head of `l`. -/
def matchNonceAt (l : List Char) : Option String :=
  let pat := "name=\"nonce\"".data
  if pat.isPrefixOf l then
    let rest := l.drop pat.length
    tryPreLens rest (rest.takeWhile (fun c => c != '>')).length
  else none

/-- Leftmost match: slide the start position forward until the pattern
matches. -/
def extractNonceAux : List Char → Option String
  | [] => none
  | c :: cs =>
    match matchNonceAt (c :: cs) with
    | some s => some s
    | none => extractNonceAux cs

/-- Embeds `extractNonce` (scraping.go): first captured nonce value, or `""`
when the pattern does not occur. -/
def extractNonce (s : String) : String :=
  match extractNonceAux s.data with
  | some nonce => nonce
  | none => ""

/-! ## Router client data model (router/router.go) -/

/-- Embeds the `Forward` struct.  Fields the Go code leaves at their zero
value are the empty string. -/
structure Forward where
  publicIP : String
  deviceName : String
  serviceName : String
  ports : String
  devicePort : String
  deleteID : String
deriving Repr, DecidableEq

/-- The error kinds the router client surfaces (the Go code returns
`fmt.Errorf` values; the constructors record which failure site produced the
error).  `outOfBounds` is the total rendering of the Go slice-indexing panic
in `GetForwards`' row conversion. -/
inductive RtError where
  | parseError (msg : String)
  | notFound (serviceName : String)
  | remoteRejection (msg : String)
  | outOfBounds
deriving Repr, DecidableEq

/-- A page served by the router: the raw body (input of `extractNonce`) and
its parse tree (output of the external `html.Parse`, supplied by the
environment). -/
structure Page where
  body : String
  doc : HNode

/-- One HTTP operation issued by the client, recorded in an effect trace. -/
inductive HttpOp where
  | get (url : String)
  | post (url : String) (formData : List (String × String))
deriving Repr, DecidableEq

/-- The pages the router serves during one client call: the listing page
returned by the `GET` inside `GetForwards`, and the result page returned by
the follow-up `GET` inside `doRequest`. -/
structure RouterEnv where
  listPage : Page
  resultPage : Page

def apphostingPath : String := "/cgi-bin/apphosting.ha"

/-! ## GetForwards -/

/-- Embeds Go's `strings.TrimSpace`: strip leading and trailing whitespace
characters. -/
def trimSpace (s : String) : String :=
  String.mk (((s.data.dropWhile Char.isWhitespace).reverse.dropWhile
    Char.isWhitespace).reverse)

/-- Cell texts of one table row: `findElements(row, "td")` and
`strings.TrimSpace(getTextContent(cell))`. -/
def rowCellTexts (row : HNode) : List String :=
  (findElements row "td").map (fun cell => trimSpace (getTextContent cell))

/-- One row's `Forward` (router.go builds it from `cellTexts[0]`..`[4]`;
Go panics when the row has fewer than five cells, rendered here as `none`). -/
def rowToForward (cellTexts : List String) : Option Forward :=
  match cellTexts[0]?, cellTexts[1]?, cellTexts[2]?, cellTexts[3]?, cellTexts[4]? with
  | some c0, some c1, some c2, some c3, some c4 =>
    some { publicIP := c1, deviceName := c0, serviceName := c2, ports := c3,
           devicePort := "", deleteID := c4 }
  | _, _, _, _, _ => none

/-- Convert all data rows; `none` as soon as one row lacks a cell (the Go
panic aborts the whole call). -/
def rowsToForwards : List HNode → Option (List Forward)
  | [] => some []
  | row :: rest =>
    match rowToForward (rowCellTexts row) with
    | none => none
    | some f =>
      match rowsToForwards rest with
      | none => none
      | some fs => some (f :: fs)

/-- Embeds `GetForwards` (router.go), given the listing page the router
served: find the `grid table100` table (else a parse error), convert every
`tr` after the header row, then extract the page nonce (empty nonce is an
error). -/
def getForwards (page : Page) : Except RtError (List Forward × String) :=
  match findTableByClass page.doc "grid table100" with
  | none => Except.error (RtError.parseError "could not find table with class grid table100")
  | some table =>
    let rows := findElements table "tr"
    match rowsToForwards (rows.drop 1) with
    | none => Except.error RtError.outOfBounds
    | some fwds =>
      let nonce := extractNonce page.body
      if nonce == "" then
        Except.error (RtError.parseError "could not find nonce in apphosting page")
      else
        Except.ok (fwds, nonce)

/-! ## doRequest, AddForward, DeleteForward -/

/-- The error-banner scan of `doRequest` (router.go) over the fetched result
page: an error is reported only when an error indicator is present AND an
`error-message-text` element exists AND its trimmed text is nonempty. -/
def checkResultPage (doc : HNode) : Except RtError Unit :=
  let icon1 := findElementByID doc "error-message-icon"
  let icon2 := findElementByAttr doc "src" "/images/icon_error.png"
  if icon1.isSome || icon2.isSome then
    match findElementByID doc "error-message-text" with
    | some errorDiv =>
      let errorText := trimSpace (getTextContent errorDiv)
      if errorText != "" then Except.error (RtError.remoteRejection errorText)
      else Except.ok ()
    | none => Except.ok ()
  else Except.ok ()

/-- Embeds `doRequest` (router.go): the `POST`, the follow-up `GET` to the
same URL (the router answers the `POST` itself with a meta-refresh
placeholder), and the error-banner scan of the page that `GET` returned. -/
def doRequest (url : String) (formData : List (String × String)) (resultPage : Page) :
    List HttpOp × Except RtError Unit :=
  ([HttpOp.post url formData, HttpOp.get url], checkResultPage resultPage.doc)

/-- The form fields of the add `POST` (router.go, `AddForward`). -/
def addForwardData (nonce : String) (forward : Forward) : List (String × String) :=
  [("nonce", nonce), ("device_select", forward.deviceName),
   ("device_manual", forward.deviceName), ("serviceName", forward.serviceName),
   ("service", "custom"), ("protocol", "both"), ("extMinPort", forward.ports),
   ("extMaxPort", ""), ("intStartPort", forward.devicePort), ("publicip", ""),
   ("Add", "Add")]

/-- Embeds `AddForward` (router.go): `GetForwards` is called for its nonce
(the listing itself is discarded), then the add form is submitted through
`doRequest`.  The trace starts with the listing `GET`. -/
def addForward (baseURL : String) (env : RouterEnv) (forward : Forward) :
    List HttpOp × Except RtError Unit :=
  match getForwards env.listPage with
  | Except.error e => ([HttpOp.get (baseURL ++ apphostingPath)], Except.error e)
  | Except.ok (_, nonce) =>
    let url := baseURL ++ apphostingPath
    let (ops, res) := doRequest url (addForwardData nonce forward) env.resultPage
    (HttpOp.get url :: ops, res)

/-- The first-match search of `DeleteForward`'s `for ... break` loop: the
`deleteID` of the first listed forward whose `serviceName` matches, else
`""`. -/
def findDeleteID : List Forward → String → String
  | [], _ => ""
  | f :: fs, serviceName =>
    if f.serviceName == serviceName then f.deleteID else findDeleteID fs serviceName

/-- Embeds `DeleteForward` (router.go): list to obtain nonce and rows, find
the first row matching `serviceName`; an empty `deleteID` is the not-found
failure, otherwise the delete form (`nonce` plus the row's delete field set to
`Delete`) is submitted through `doRequest`. -/
def deleteForward (baseURL : String) (env : RouterEnv) (forward : Forward) :
    List HttpOp × Except RtError Unit :=
  match getForwards env.listPage with
  | Except.error e => ([HttpOp.get (baseURL ++ apphostingPath)], Except.error e)
  | Except.ok (fwds, nonce) =>
    let url := baseURL ++ apphostingPath
    let deleteID := findDeleteID fwds forward.serviceName
    if deleteID == "" then
      ([HttpOp.get url], Except.error (RtError.notFound forward.serviceName))
    else
      let (ops, res) := doRequest url [("nonce", nonce), (deleteID, "Delete")] env.resultPage
      (HttpOp.get url :: ops, res)

/-! ## Controller (controller/controller.go)

Kubernetes service data reaches the controller as `corev1.Service`; the
fields the controller reads are its namespace, name, spec type and spec
ports.  Router-client calls are recorded as a trace of `RouterOp`s, and the
outcome of each call is supplied by an oracle function `Forward → Option
RtError` (`none` = success), since it depends on the router. -/

/-- The fields of `corev1.ServicePort` the controller reads (plus
`targetPort`, which it does not read). -/
structure ServicePort where
  name : String
  port : Int
  targetPort : Int
  nodePort : Int
deriving Repr, DecidableEq

/-- The fields of `corev1.Service` the controller reads.  `ns` is
`metadata.namespace` (`namespace` is a Lean keyword). -/
structure Service where
  ns : String
  name : String
  svcType : String
  ports : List ServicePort
deriving Repr, DecidableEq

/-- Embeds `affectedForwards` (controller.go): one `Forward` per service port
whose NodePort is nonzero (`continue` otherwise), with `Ports` the declared
port, `DevicePort` the NodePort and the synthetic service name
`{namespace}-{name}-{port}-{nodePort}`; fields Go leaves unset are `""`. -/
def affectedForwards (deviceName : String) (service : Service) : List Forward :=
  (service.ports.filter (fun p => p.nodePort != 0)).map (fun p =>
    { deviceName := deviceName,
      ports := toString p.port,
      devicePort := toString p.nodePort,
      serviceName := service.ns ++ "-" ++ service.name ++ "-" ++
        toString p.port ++ "-" ++ toString p.nodePort,
      publicIP := "", deleteID := "" })

/-- Go map assignment `m[k] = v`: overwrite the existing binding or append a
new one (the association list keeps keys unique). -/
def upsert (m : List (String × String)) (k v : String) : List (String × String) :=
  if m.any (fun kv => kv.1 == k) then
    m.map (fun kv => if kv.1 == k then (k, v) else kv)
  else m ++ [(k, v)]

/-- The `port name -> "nodePort-port"` map `nodePortsChanged` builds from a
spec's ports (entries with NodePort zero are skipped). -/
def portsMap (ports : List ServicePort) : List (String × String) :=
  ports.foldl (fun m p =>
    if p.nodePort != 0 then
      upsert m p.name (toString p.nodePort ++ "-" ++ toString p.port)
    else m) []

def lookupKey (m : List (String × String)) (k : String) : Option String :=
  match m.find? (fun kv => kv.1 == k) with
  | some kv => some kv.2
  | none => none

/-- `equality.Semantic.DeepEqual` on two Go maps: same keys, same values. -/
def mapsEqual (m1 m2 : List (String × String)) : Bool :=
  m1.all (fun kv => lookupKey m2 kv.1 == some kv.2)
    && m2.all (fun kv => lookupKey m1 kv.1 == some kv.2)

/-- Embeds `nodePortsChanged` (controller.go). -/
def nodePortsChanged (oldService newService : Service) : Bool :=
  !(mapsEqual (portsMap oldService.ports) (portsMap newService.ports))

/-- One router-client mutation call made by the controller. -/
inductive RouterOp where
  | addF (forward : Forward)
  | delF (forward : Forward)
deriving Repr, DecidableEq

/-- The Go `for`-loop shared by `handleServiceAdd`, `handleServiceDelete` and
the add half of `handleServiceUpdate`: call the router client on each forward
in order and return the first error, attempting nothing further after it. -/
def runOps (mk : Forward → RouterOp) (outcome : Forward → Option RtError) :
    List Forward → List RouterOp × Option RtError
  | [] => ([], none)
  | f :: fs =>
    match outcome f with
    | some e => ([mk f], some e)
    | none =>
      let (ops, res) := runOps mk outcome fs
      (mk f :: ops, res)

/-- Embeds `handleServiceAdd` (controller.go). -/
def handleServiceAdd (deviceName : String) (addOutcome : Forward → Option RtError)
    (service : Service) : List RouterOp × Option RtError :=
  runOps RouterOp.addF addOutcome (affectedForwards deviceName service)

/-- Embeds `handleServiceDelete` (controller.go): here a delete failure IS
returned to the caller. -/
def handleServiceDelete (deviceName : String) (delOutcome : Forward → Option RtError)
    (service : Service) : List RouterOp × Option RtError :=
  runOps RouterOp.delF delOutcome (affectedForwards deviceName service)

/-- Embeds `handleServiceUpdate` (controller.go): `DeleteForward` is invoked
on every forward of the old spec — its outcome is only logged (`let _ :=`),
never returned and never short-circuiting — then the add loop runs on the new
spec's forwards, fatally. -/
def handleServiceUpdate (deviceName : String) (delOutcome addOutcome : Forward → Option RtError)
    (oldService newService : Service) : List RouterOp × Option RtError :=
  let oldForwards := affectedForwards deviceName oldService
  let newForwards := affectedForwards deviceName newService
  let delOps := oldForwards.map (fun f => let _ := delOutcome f; RouterOp.delF f)
  let addRun := runOps RouterOp.addF addOutcome newForwards
  (delOps ++ addRun.1, addRun.2)

/-- Embeds the informer `UpdateFunc` (controller.go `Run`): non-NodePort
services are ignored, `handleServiceUpdate` runs only when
`nodePortsChanged` reports a difference. -/
def updateEvent (deviceName : String) (delOutcome addOutcome : Forward → Option RtError)
    (oldService newService : Service) : List RouterOp × Option RtError :=
  if newService.svcType != "NodePort" then ([], none)
  else if nodePortsChanged oldService newService then
    handleServiceUpdate deviceName delOutcome addOutcome oldService newService
  else ([], none)

/-! ## Concrete fixtures

Explicit router pages, environments and services used by the concrete
scenarios and witnesses below. -/

/-- A minimal body containing the hidden nonce field. -/
def nonceBody : String := "name=\"nonce\" value=\"n0\""

def tdText (s : String) : HNode := HNode.elem "td" [] [HNode.text s]

/-- A listing cell holding the row's delete button (an `input` whose `name`
attribute is the delete identifier). -/
def tdInput (nm : String) : HNode :=
  HNode.elem "td" [] [HNode.elem "input" [⟨"name", nm⟩, ⟨"value", "Delete"⟩] []]

def headerRow : HNode := HNode.elem "tr" [] [HNode.elem "th" [] [HNode.text "Device"]]

/-- The rules table of the apphosting page. -/
def rulesTable (rows : List HNode) : HNode :=
  HNode.elem "table" [⟨"class", "grid table100"⟩] rows

/-- Listing row for `default-myapp-8080-30080`. -/
def rowMyapp : HNode := HNode.elem "tr" []
  [tdText "talos0", tdText "203.0.113.7", tdText "default-myapp-8080-30080",
   tdText "8080", tdInput "delfwd_1"]

def pageMyapp : Page :=
  { body := nonceBody, doc := HNode.elem "html" [] [rulesTable [headerRow, rowMyapp]] }

/-- The observed forward scraped from `rowMyapp`. -/
def obsMyapp : Forward :=
  { publicIP := "203.0.113.7", deviceName := "talos0",
    serviceName := "default-myapp-8080-30080", ports := "8080",
    devicePort := "", deleteID := "delfwd_1" }

/-- A result page with no error banner. -/
def pageOk : Page := { body := nonceBody, doc := HNode.elem "html" [] [] }

def envMyapp : RouterEnv := { listPage := pageMyapp, resultPage := pageOk }

/-- The desired forward the controller derives for `default/myapp` port
8080/NodePort 30080. -/
def fwdMyapp : Forward :=
  { publicIP := "", deviceName := "talos0", serviceName := "default-myapp-8080-30080",
    ports := "8080", devicePort := "30080", deleteID := "" }

/-- Apphosting page whose table holds only the header row. -/
def pageHeaderOnly : Page :=
  { body := nonceBody, doc := HNode.elem "html" [] [rulesTable [headerRow]] }

/-- A page with no rules table at all (as rendered to an unauthenticated
session). -/
def pageNoTable : Page :=
  { body := nonceBody, doc := HNode.elem "html" [] [HNode.elem "div" [] [HNode.text "login"]] }

/-- A data row with only two cells. -/
def rowShort : HNode := HNode.elem "tr" [] [tdText "talos0", tdText "203.0.113.7"]

def pageBadRow : Page :=
  { body := nonceBody, doc := HNode.elem "html" [] [rulesTable [headerRow, rowShort]] }

/-- A result page carrying the error icon but no error-message-text element. -/
def pageIconOnly : Page :=
  { body := "", doc := HNode.elem "html" [] [HNode.elem "div" [⟨"id", "error-message-icon"⟩] []] }

/-- A data row whose fifth cell is empty: the scraped forward has
`deleteID = ""`. -/
def rowEmptyDel : HNode := HNode.elem "tr" []
  [tdText "talos0", tdText "203.0.113.7", tdText "svc-a", tdText "8080",
   HNode.elem "td" [] []]

def pageEmptyDel : Page :=
  { body := nonceBody, doc := HNode.elem "html" [] [rulesTable [headerRow, rowEmptyDel]] }

/-- The observed forward scraped from `rowEmptyDel`. -/
def obsEmptyDel : Forward :=
  { publicIP := "203.0.113.7", deviceName := "talos0", serviceName := "svc-a",
    ports := "8080", devicePort := "", deleteID := "" }

def envEmptyDel : RouterEnv := { listPage := pageEmptyDel, resultPage := pageOk }

/-- A desired forward whose serviceName matches `rowEmptyDel`'s row. -/
def fwdA : Forward :=
  { publicIP := "", deviceName := "talos0", serviceName := "svc-a",
    ports := "8080", devicePort := "30080", deleteID := "" }

/-- Service `default/myapp` with one port 8080 / targetPort 8080 /
NodePort 30080. -/
def svcMyapp : Service :=
  { ns := "default", name := "myapp", svcType := "NodePort",
    ports := [{ name := "", port := 8080, targetPort := 8080, nodePort := 30080 }] }

/-- Same service but with a target port that differs from the declared
port. -/
def svcTargetMismatch : Service :=
  { ns := "default", name := "myapp", svcType := "NodePort",
    ports := [{ name := "web", port := 8080, targetPort := 9999, nodePort := 30080 }] }

/-- Old spec of the update scenario: named port `web` at 8080 with NodePort
30080. -/
def svcWebOld : Service :=
  { ns := "default", name := "myapp", svcType := "NodePort",
    ports := [{ name := "web", port := 8080, targetPort := 8080, nodePort := 30080 }] }

/-- New spec of the update scenario: the same named port moved to 9090 with
NodePort 30090. -/
def svcWebNew : Service :=
  { ns := "default", name := "myapp", svcType := "NodePort",
    ports := [{ name := "web", port := 9090, targetPort := 9090, nodePort := 30090 }] }

/-- The forward derived from the old spec. -/
def oldFwdWeb (dev : String) : Forward :=
  { publicIP := "", deviceName := dev, serviceName := "default-myapp-8080-30080",
    ports := "8080", devicePort := "30080", deleteID := "" }

/-- The forward derived from the new spec. -/
def newFwdWeb (dev : String) : Forward :=
  { publicIP := "", deviceName := dev, serviceName := "default-myapp-9090-30090",
    ports := "9090", devicePort := "30090", deleteID := "" }

/-- A NodePort-typed service none of whose ports has a NodePort assigned. -/
def svcNoNodePorts : Service :=
  { ns := "default", name := "pending", svcType := "NodePort",
    ports := [{ name := "web", port := 8080, targetPort := 8080, nodePort := 0 },
              { name := "metrics", port := 9100, targetPort := 0, nodePort := 0 }] }

/-- A service with two ports, both with NodePorts. -/
def svcTwoPorts : Service :=
  { ns := "prod", name := "store", svcType := "NodePort",
    ports := [{ name := "http", port := 80, targetPort := 0, nodePort := 30001 },
              { name := "https", port := 443, targetPort := 8443, nodePort := 30002 }] }

/-! ## Helper lemmas -/

/-- The add/delete loop maps a singleton forward list to a singleton trace,
whatever the outcome. -/
theorem runOps_singleton_ops (mk : Forward → RouterOp) (o : Forward → Option RtError)
    (f : Forward) : (runOps mk o [f]).1 = [mk f] := by
  cases h : o f <;> simp [runOps, h]

/-- When every call succeeds, the loop performs every operation and returns
no error. -/
theorem runOps_all_ok (mk : Forward → RouterOp) (o : Forward → Option RtError)
    (fs : List Forward) (h : ∀ f ∈ fs, o f = none) :
    runOps mk o fs = (fs.map mk, none) := by
  induction fs with
  | nil => rfl
  | cons f fs ih =>
    have hf : o f = none := h f (List.mem_cons_self f fs)
    simp [runOps, hf, ih (fun g hg => h g (List.mem_cons_of_mem f hg))]

/-- When the first failing call is `f`, the loop performs exactly the
operations up to and including `f` and returns `f`'s error: nothing after
`f` is attempted. -/
theorem runOps_append_fail (mk : Forward → RouterOp) (o : Forward → Option RtError)
    (fs1 : List Forward) (f : Forward) (fs2 : List Forward) (e : RtError)
    (h1 : ∀ g ∈ fs1, o g = none) (h2 : o f = some e) :
    runOps mk o (fs1 ++ f :: fs2) = ((fs1 ++ [f]).map mk, some e) := by
  induction fs1 with
  | nil => simp [runOps, h2]
  | cons g gs ih =>
    have hg : o g = none := h1 g (List.mem_cons_self g gs)
    simp [runOps, hg, ih (fun x hx => h1 x (List.mem_cons_of_mem g hx))]

/-- `findDeleteID` is the `deleteID` of the first listed forward whose
`serviceName` matches, or `""`. -/
theorem findDeleteID_spec (fwds : List Forward) (svc : String) :
    findDeleteID fwds svc =
      (match fwds.find? (fun x => x.serviceName == svc) with
       | some fw => fw.deleteID
       | none => "") := by
  induction fwds with
  | nil => rfl
  | cons f fs ih =>
    unfold findDeleteID
    rw [List.find?]
    cases h : f.serviceName == svc <;> simp [h, ih]

/-- The error-banner scan yields success or a remote rejection, nothing
else. -/
theorem checkResultPage_cases (doc : HNode) :
    checkResultPage doc = Except.ok () ∨
    ∃ msg, checkResultPage doc = Except.error (RtError.remoteRejection msg) := by
  unfold checkResultPage
  dsimp only
  repeat' split
  all_goals first | (left; rfl) | (right; exact ⟨_, rfl⟩)

/-- The error-banner scan never reports a not-found error. -/
theorem checkResultPage_ne_notFound (doc : HNode) (s : String) :
    checkResultPage doc ≠ Except.error (RtError.notFound s) := by
  rcases checkResultPage_cases doc with h | ⟨msg, h⟩ <;> rw [h] <;> simp

/-! ## C8: the concrete single-port scenario -/

/-- C8: a service `default/myapp` with exactly one port `port=8080`,
`targetPort=8080`, `nodePort=30080` yields exactly one Forward with
`serviceName = "default-myapp-8080-30080"`, `ports = "8080"`,
`devicePort = "30080"` and the configured device name. -/
theorem c8_single_port_scenario (dev : String) :
    affectedForwards dev svcMyapp =
      [{ publicIP := "", deviceName := dev,
         serviceName := "default-myapp-8080-30080",
         ports := "8080", devicePort := "30080", deleteID := "" }] := rfl

/-! ## C10: short listing rows hit the out-of-bounds branch -/

/-- C10: `GetForwards` indexes row cells 0..4 without checking the cell
count: on a page whose rules table is present but contains a data row with
only two `td` cells, row conversion hits the out-of-bounds branch (a panic in
the Go source) instead of a `ParseError` or a skipped row. -/
theorem c10_short_row_out_of_bounds :
    (findTableByClass pageBadRow.doc "grid table100").isSome = true ∧
    (rowCellTexts rowShort).length = 2 ∧
    getForwards pageBadRow = Except.error RtError.outOfBounds ∧
    (∀ msg, RtError.outOfBounds ≠ RtError.parseError msg) :=
  ⟨rfl, rfl, rfl, fun _ => by simp⟩

/-! ## C9: services without eligible NodePorts produce no operations -/

/-- C9: for a service in which no port has a nonzero NodePort, the
affected-forward set is empty and the add and delete event handlers invoke no
router operation at all. -/
theorem c9_no_eligible_ports (dev : String) (addO delO : Forward → Option RtError)
    (svc : Service) (h : ∀ p ∈ svc.ports, p.nodePort = 0) :
    affectedForwards dev svc = [] ∧
    handleServiceAdd dev addO svc = ([], none) ∧
    handleServiceDelete dev delO svc = ([], none) := by
  have hf : affectedForwards dev svc = [] := by
    unfold affectedForwards
    have hfil : svc.ports.filter (fun p => p.nodePort != 0) = [] := by
      rw [List.filter_eq_nil_iff]
      intro p hp
      simp [h p hp]
    rw [hfil]
    rfl
  refine ⟨hf, ?_, ?_⟩
  · unfold handleServiceAdd
    rw [hf]
    rfl
  · unfold handleServiceDelete
    rw [hf]
    rfl

/-- Witness for C9 at the concrete service `svcNoNodePorts`. -/
theorem c9_no_eligible_ports_witness :
    (∀ p ∈ svcNoNodePorts.ports, p.nodePort = 0) ∧
    (affectedForwards "talos0" svcNoNodePorts = [] ∧
     handleServiceAdd "talos0" (fun _ => none) svcNoNodePorts = ([], none) ∧
     handleServiceDelete "talos0" (fun _ => none) svcNoNodePorts = ([], none)) :=
  ⟨by decide,
   c9_no_eligible_ports "talos0" (fun _ => none) (fun _ => none) svcNoNodePorts (by decide)⟩

/-! ## C1: ports comes from the declared port, not the target port -/

/-- C1 (counterexample): the claim — internal `ports` equals the target port,
falling back to the declared port only when the target port is zero — is
false: for `svcTargetMismatch` (declared 8080, target 9999, NodePort 30080)
the code emits `ports = "8080"`, not `"9999"`. -/
theorem c1_target_port_counterexample :
    ¬ (∀ (dev : String) (svc : Service),
        (∀ p ∈ svc.ports, p.nodePort ≠ 0) →
        List.Forall₂ (fun (p : ServicePort) (fw : Forward) =>
            fw.devicePort = toString p.nodePort ∧
            fw.ports = toString (if p.targetPort != 0 then p.targetPort else p.port))
          svc.ports (affectedForwards dev svc)) := by
  intro hclaim
  have h1 := hclaim "talos0" svcTargetMismatch (by decide)
  have h2 : affectedForwards "talos0" svcTargetMismatch =
      [{ publicIP := "", deviceName := "talos0",
         serviceName := "default-myapp-8080-30080",
         ports := "8080", devicePort := "30080", deleteID := "" }] := rfl
  rw [h2] at h1
  exact absurd (List.forall₂_cons.mp h1).1.2 (by decide)

/-- C1 (amended): for a service all of whose ports carry a nonzero NodePort,
the affected-forward set has exactly one Forward per port, in order, with
`devicePort` the NodePort and `ports` the DECLARED port — the target port is
never consulted. -/
theorem c1_declared_port_forwards (dev : String) (svc : Service)
    (h : ∀ p ∈ svc.ports, p.nodePort ≠ 0) :
    affectedForwards dev svc = svc.ports.map (fun p =>
      { publicIP := "", deviceName := dev,
        serviceName := svc.ns ++ "-" ++ svc.name ++ "-" ++
          toString p.port ++ "-" ++ toString p.nodePort,
        ports := toString p.port, devicePort := toString p.nodePort,
        deleteID := "" }) := by
  unfold affectedForwards
  have hfil : svc.ports.filter (fun p => p.nodePort != 0) = svc.ports := by
    rw [List.filter_eq_self]
    intro p hp
    simp [h p hp]
  rw [hfil]

/-- Witness for the amended C1 at the concrete two-port service. -/
theorem c1_declared_port_forwards_witness :
    (∀ p ∈ svcTwoPorts.ports, p.nodePort ≠ 0) ∧
    affectedForwards "talos0" svcTwoPorts = svcTwoPorts.ports.map (fun p =>
      { publicIP := "", deviceName := "talos0",
        serviceName := svcTwoPorts.ns ++ "-" ++ svcTwoPorts.name ++ "-" ++
          toString p.port ++ "-" ++ toString p.nodePort,
        ports := toString p.port, devicePort := toString p.nodePort,
        deleteID := "" }) :=
  ⟨by decide, c1_declared_port_forwards "talos0" svcTwoPorts (by decide)⟩

/-! ## C2: update semantics -/

/-- C2: for the update event moving the named port from port 8080 / NodePort
30080 to port 9090 / NodePort 30090, the engine issues exactly one delete of
the old forward followed by exactly one add of the new forward (whatever each
call's outcome); and when the comparable old and new NodePort/port
assignments per named port are identical, it issues no delete and no add. -/
theorem c2_update_semantics :
    (∀ (dev : String) (delO addO : Forward → Option RtError),
      (updateEvent dev delO addO svcWebOld svcWebNew).1 =
        [RouterOp.delF (oldFwdWeb dev), RouterOp.addF (newFwdWeb dev)]) ∧
    (∀ (dev : String) (delO addO : Forward → Option RtError) (oldS newS : Service),
      mapsEqual (portsMap oldS.ports) (portsMap newS.ports) = true →
      updateEvent dev delO addO oldS newS = ([], none)) := by
  constructor
  · intro dev delO addO
    have hshape : (updateEvent dev delO addO svcWebOld svcWebNew).1
        = [RouterOp.delF (oldFwdWeb dev)] ++
          (runOps RouterOp.addF addO [newFwdWeb dev]).1 := rfl
    rw [hshape, runOps_singleton_ops]
    rfl
  · intro dev delO addO oldS newS h
    unfold updateEvent
    have hnc : nodePortsChanged oldS newS = false := by
      unfold nodePortsChanged
      rw [h]
      rfl
    rw [hnc]
    split <;> rfl

/-- Witness for C2's no-change case: identical old and new specs produce no
operations. -/
theorem c2_update_semantics_witness :
    mapsEqual (portsMap svcWebOld.ports) (portsMap svcWebOld.ports) = true ∧
    updateEvent "talos0" (fun _ => none) (fun _ => none) svcWebOld svcWebOld = ([], none) :=
  ⟨by decide,
   c2_update_semantics.2 "talos0" (fun _ => none) (fun _ => none) svcWebOld svcWebOld (by decide)⟩

/-! ## C3: AddForward never skips the add submission -/

/-- C3 (counterexample): the pre-mutation listing already contains a row with
the same serviceName, ports and device name as the forward being added, yet
`AddForward` still submits the add POST — there is no decide-and-skip in the
client. -/
theorem c3_no_skip_counterexample :
    getForwards envMyapp.listPage = Except.ok ([obsMyapp], "n0") ∧
    obsMyapp.serviceName = fwdMyapp.serviceName ∧
    obsMyapp.ports = fwdMyapp.ports ∧
    obsMyapp.deviceName = fwdMyapp.deviceName ∧
    (addForward "http://router" envMyapp fwdMyapp).1 =
      [HttpOp.get "http://router/cgi-bin/apphosting.ha",
       HttpOp.post "http://router/cgi-bin/apphosting.ha" (addForwardData "n0" fwdMyapp),
       HttpOp.get "http://router/cgi-bin/apphosting.ha"] :=
  ⟨rfl, rfl, rfl, rfl, rfl⟩

/-- C3 (amended): whenever the pre-mutation listing succeeds, `AddForward`
submits the add POST unconditionally, whatever the listing contains — the
listing is fetched only for its nonce, and avoiding a duplicate rule is left
to the router's own same-name, same-value handling. -/
theorem c3_add_always_submits (baseURL : String) (env : RouterEnv) (forward : Forward)
    (fwds : List Forward) (nonce : String)
    (h : getForwards env.listPage = Except.ok (fwds, nonce)) :
    (addForward baseURL env forward).1 =
      [HttpOp.get (baseURL ++ apphostingPath),
       HttpOp.post (baseURL ++ apphostingPath) (addForwardData nonce forward),
       HttpOp.get (baseURL ++ apphostingPath)] := by
  unfold addForward
  rw [h]
  rfl

/-- Witness for the amended C3 at the concrete environment whose listing
already holds the row being added. -/
theorem c3_add_always_submits_witness :
    getForwards envMyapp.listPage = Except.ok ([obsMyapp], "n0") ∧
    (addForward "http://r2" envMyapp fwdMyapp).1 =
      [HttpOp.get ("http://r2" ++ apphostingPath),
       HttpOp.post ("http://r2" ++ apphostingPath) (addForwardData "n0" fwdMyapp),
       HttpOp.get ("http://r2" ++ apphostingPath)] :=
  ⟨rfl, c3_add_always_submits "http://r2" envMyapp fwdMyapp [obsMyapp] "n0" rfl⟩

/-! ## C4: the submit-and-recheck protocol -/

/-- C4 (counterexample): the claim — the operation errors if and only if the
result page carries the error indicator — is false: on a page carrying the
`error-message-icon` indicator but no `error-message-text` element, the
operation succeeds. -/
theorem c4_error_iff_counterexample :
    (findElementByID pageIconOnly.doc "error-message-icon").isSome = true ∧
    (doRequest "http://router/cgi-bin/apphosting.ha" [] pageIconOnly).2 = Except.ok () :=
  ⟨rfl, rfl⟩

/-- C4 (amended): every mutating submission POSTs and then GETs the same URL,
and the operation fails exactly when the fetched result page carries an error
indicator AND an `error-message-text` element with nonempty trimmed text, the
error surfacing that text; in every other case (no indicator, or indicator
with missing/empty text) the operation succeeds. -/
theorem c4_post_then_get_and_error_scan (url : String)
    (formData : List (String × String)) (resultPage : Page) :
    (doRequest url formData resultPage).1 = [HttpOp.post url formData, HttpOp.get url] ∧
    (∀ e : RtError, (doRequest url formData resultPage).2 = Except.error e ↔
      ((findElementByID resultPage.doc "error-message-icon").isSome = true ∨
       (findElementByAttr resultPage.doc "src" "/images/icon_error.png").isSome = true) ∧
      ∃ errorDiv, findElementByID resultPage.doc "error-message-text" = some errorDiv ∧
        trimSpace (getTextContent errorDiv) ≠ "" ∧
        e = RtError.remoteRejection (trimSpace (getTextContent errorDiv))) := by
  refine ⟨rfl, fun e => ?_⟩
  show checkResultPage resultPage.doc = Except.error e ↔ _
  unfold checkResultPage
  dsimp only
  cases hic : ((findElementByID resultPage.doc "error-message-icon").isSome
      || (findElementByAttr resultPage.doc "src" "/images/icon_error.png").isSome) with
  | false =>
    have hic1 : (findElementByID resultPage.doc "error-message-icon").isSome = false := by
      simp only [Bool.or_eq_false_iff] at hic
      exact hic.1
    have hic2 : (findElementByAttr resultPage.doc "src" "/images/icon_error.png").isSome
        = false := by
      simp only [Bool.or_eq_false_iff] at hic
      exact hic.2
    constructor
    · intro h
      simp at h
    · rintro ⟨hind, -⟩
      rcases hind with h1 | h1
      · rw [hic1] at h1
        exact absurd h1 (by simp)
      · rw [hic2] at h1
        exact absurd h1 (by simp)
  | true =>
    have hdisj : (findElementByID resultPage.doc "error-message-icon").isSome = true ∨
        (findElementByAttr resultPage.doc "src" "/images/icon_error.png").isSome = true := by
      simpa using hic
    cases hdiv : findElementByID resultPage.doc "error-message-text" with
    | none =>
      constructor
      · intro h
        simp at h
      · rintro ⟨-, d', hd', -⟩
        exact absurd hd' (by simp)
    | some d =>
      cases ht : (trimSpace (getTextContent d) != "") with
      | false =>
        have ht' : trimSpace (getTextContent d) = "" := by simpa using ht
        constructor
        · intro h
          simp [ht] at h
        · rintro ⟨-, d', hd', hne, -⟩
          injection hd' with hdd
          subst hdd
          exact absurd ht' hne
      | true =>
        have ht' : trimSpace (getTextContent d) ≠ "" := by simpa using ht
        constructor
        · intro h
          simp only [if_pos rfl, reduceIte, ht] at h
          simp at h
          exact ⟨hdisj, d, rfl, ht', h.symm⟩
        · rintro ⟨-, d', hd', -, he⟩
          injection hd' with hdd
          subst hdd
          subst he
          simp [ht]

/-! ## C5: DeleteForward's not-found condition -/

/-- C5 (counterexample): the claim — `NotFoundError` exactly when no listed
forward has the target's serviceName — is false: on a listing whose matching
row has an empty delete identifier (fifth cell empty), `DeleteForward` fails
with the not-found error even though a row with that serviceName exists. -/
theorem c5_notfound_counterexample :
    getForwards envEmptyDel.listPage = Except.ok ([obsEmptyDel], "n0") ∧
    obsEmptyDel.serviceName = fwdA.serviceName ∧
    (deleteForward "http://router" envEmptyDel fwdA).2 =
      Except.error (RtError.notFound "svc-a") :=
  ⟨rfl, rfl, rfl⟩

/-- C5 (amended): when the listing succeeds, `deleteForward` fails with the
not-found error exactly when the first listed row matching the target's
serviceName (if any) has an empty `deleteID` — in particular when no row
matches; and when the first matching row has a nonempty `deleteID`, it
submits a POST setting that row's deleteID field to `Delete` together with
the page nonce, its outcome the error-banner scan of the result page. -/
theorem c5_delete_first_match (baseURL : String) (env : RouterEnv) (forward : Forward)
    (fwds : List Forward) (nonce : String)
    (h : getForwards env.listPage = Except.ok (fwds, nonce)) :
    ((deleteForward baseURL env forward).2 =
        Except.error (RtError.notFound forward.serviceName) ↔
      ∀ fw, fwds.find? (fun x => x.serviceName == forward.serviceName) = some fw →
        fw.deleteID = "") ∧
    (∀ fw, fwds.find? (fun x => x.serviceName == forward.serviceName) = some fw →
      fw.deleteID ≠ "" →
      deleteForward baseURL env forward =
        ([HttpOp.get (baseURL ++ apphostingPath),
          HttpOp.post (baseURL ++ apphostingPath)
            [("nonce", nonce), (fw.deleteID, "Delete")],
          HttpOp.get (baseURL ++ apphostingPath)],
         checkResultPage env.resultPage.doc)) := by
  constructor
  · cases hfind : fwds.find? (fun x => x.serviceName == forward.serviceName) with
    | none =>
      have hdf : findDeleteID fwds forward.serviceName = "" := by
        rw [findDeleteID_spec, hfind]
      constructor
      · intro _ fw hfw
        exact absurd hfw (by simp)
      · intro _
        unfold deleteForward
        rw [h]
        dsimp only
        rw [hdf]
        rfl
    | some fw0 =>
      have hdf : findDeleteID fwds forward.serviceName = fw0.deleteID := by
        rw [findDeleteID_spec, hfind]
      by_cases hid : fw0.deleteID = ""
      · constructor
        · intro _ fw hfw
          injection hfw with hh
          rw [← hh]
          exact hid
        · intro _
          unfold deleteForward
          rw [h]
          dsimp only
          rw [hdf, hid]
          rfl
      · constructor
        · intro hcontr
          exfalso
          unfold deleteForward at hcontr
          rw [h] at hcontr
          dsimp only at hcontr
          rw [hdf] at hcontr
          rw [if_neg (by simp [hid])] at hcontr
          exact checkResultPage_ne_notFound env.resultPage.doc forward.serviceName hcontr
        · intro hall
          exact absurd (hall fw0 rfl) hid
  · intro fw hfw hne
    have hdf : findDeleteID fwds forward.serviceName = fw.deleteID := by
      rw [findDeleteID_spec, hfw]
    unfold deleteForward
    rw [h]
    dsimp only
    rw [hdf]
    rw [if_neg (by simp [hne])]
    rfl

/-- Witness for the amended C5: the first matching row carries deleteID
`delfwd_1`, and the delete POST targets it. -/
theorem c5_delete_first_match_witness :
    getForwards envMyapp.listPage = Except.ok ([obsMyapp], "n0") ∧
    [obsMyapp].find? (fun x => x.serviceName == fwdMyapp.serviceName) = some obsMyapp ∧
    obsMyapp.deleteID ≠ "" ∧
    deleteForward "http://router" envMyapp fwdMyapp =
      ([HttpOp.get ("http://router" ++ apphostingPath),
        HttpOp.post ("http://router" ++ apphostingPath)
          [("nonce", "n0"), (obsMyapp.deleteID, "Delete")],
        HttpOp.get ("http://router" ++ apphostingPath)],
       checkResultPage envMyapp.resultPage.doc) :=
  ⟨rfl, rfl, by decide,
   (c5_delete_first_match "http://router" envMyapp fwdMyapp [obsMyapp] "n0" rfl).2
     obsMyapp rfl (by decide)⟩

/-! ## C6: missing table vs. empty table -/

/-- C6: `GetForwards` fails with the table-missing parse error when the page
has no `grid table100` table — regardless of anything else on the page —
while a page whose table holds only the header row succeeds with an empty
forward set together with the page nonce. -/
theorem c6_missing_table_vs_empty (pNoTab pEmpty : Page) (tbl hdr : HNode)
    (h1 : findTableByClass pNoTab.doc "grid table100" = none)
    (h2 : findTableByClass pEmpty.doc "grid table100" = some tbl)
    (h3 : findElements tbl "tr" = [hdr])
    (h4 : extractNonce pEmpty.body ≠ "") :
    getForwards pNoTab =
      Except.error (RtError.parseError "could not find table with class grid table100") ∧
    getForwards pEmpty = Except.ok ([], extractNonce pEmpty.body) := by
  constructor
  · unfold getForwards
    rw [h1]
  · unfold getForwards
    rw [h2]
    dsimp only
    rw [h3]
    dsimp only [List.drop, rowsToForwards]
    rw [if_neg (by simp [h4])]

/-- Witness for C6 at the concrete pages `pageNoTable` and
`pageHeaderOnly`. -/
theorem c6_missing_table_vs_empty_witness :
    findTableByClass pageNoTable.doc "grid table100" = none ∧
    findTableByClass pageHeaderOnly.doc "grid table100" = some (rulesTable [headerRow]) ∧
    findElements (rulesTable [headerRow]) "tr" = [headerRow] ∧
    extractNonce pageHeaderOnly.body ≠ "" ∧
    (getForwards pageNoTable =
       Except.error (RtError.parseError "could not find table with class grid table100") ∧
     getForwards pageHeaderOnly = Except.ok ([], extractNonce pageHeaderOnly.body)) :=
  ⟨rfl, rfl, rfl, by decide,
   c6_missing_table_vs_empty pageNoTable pageHeaderOnly (rulesTable [headerRow]) headerRow
     rfl rfl rfl (by decide)⟩

/-! ## C7: delete failures are non-fatal in updates, add failures are fatal -/

/-- C7: within an update transition, delete outcomes are irrelevant to what
the engine does (every delete of the old spec's forwards is attempted, and
the adds proceed regardless), while the add loop stops at its first failure
in the new spec's forwards and returns that error, attempting no further
add. -/
theorem c7_update_failure_policy (dev : String)
    (delO delO' addO : Forward → Option RtError) (oldS newS : Service) :
    (handleServiceUpdate dev delO addO oldS newS
       = handleServiceUpdate dev delO' addO oldS newS) ∧
    ((handleServiceUpdate dev delO addO oldS newS).1.take
        (affectedForwards dev oldS).length
       = (affectedForwards dev oldS).map RouterOp.delF) ∧
    (∀ fs1 f fs2 e, affectedForwards dev newS = fs1 ++ f :: fs2 →
      (∀ g ∈ fs1, addO g = none) → addO f = some e →
      handleServiceUpdate dev delO addO oldS newS =
        ((affectedForwards dev oldS).map RouterOp.delF ++
           (fs1 ++ [f]).map RouterOp.addF, some e)) ∧
    ((∀ g ∈ affectedForwards dev newS, addO g = none) →
      handleServiceUpdate dev delO addO oldS newS =
        ((affectedForwards dev oldS).map RouterOp.delF ++
           (affectedForwards dev newS).map RouterOp.addF, none)) := by
  refine ⟨rfl, ?_, ?_, ?_⟩
  · show (((affectedForwards dev oldS).map RouterOp.delF) ++
        (runOps RouterOp.addF addO (affectedForwards dev newS)).1).take
          (affectedForwards dev oldS).length
      = (affectedForwards dev oldS).map RouterOp.delF
    rw [show (affectedForwards dev oldS).length
        = ((affectedForwards dev oldS).map RouterOp.delF).length from
      (List.length_map _ _).symm]
    exact List.take_left _ _
  · intro fs1 f fs2 e hsplit hok hf
    show ((affectedForwards dev oldS).map RouterOp.delF ++
        (runOps RouterOp.addF addO (affectedForwards dev newS)).1,
        (runOps RouterOp.addF addO (affectedForwards dev newS)).2) = _
    rw [hsplit, runOps_append_fail RouterOp.addF addO fs1 f fs2 e hok hf]
  · intro hall
    show ((affectedForwards dev oldS).map RouterOp.delF ++
        (runOps RouterOp.addF addO (affectedForwards dev newS)).1,
        (runOps RouterOp.addF addO (affectedForwards dev newS)).2) = _
    rw [runOps_all_ok RouterOp.addF addO _ hall]

/-- Witness for C7: with a failing delete oracle and a failing add oracle,
the old forward's delete is still attempted, the new forward's add is
attempted once, and the add error is returned. -/
theorem c7_update_failure_policy_witness :
    handleServiceUpdate "talos0" (fun _ => some (RtError.remoteRejection "boom"))
        (fun _ => some (RtError.remoteRejection "deny")) svcWebOld svcWebNew =
      ([RouterOp.delF (oldFwdWeb "talos0"), RouterOp.addF (newFwdWeb "talos0")],
       some (RtError.remoteRejection "deny")) := by
  have happ := (c7_update_failure_policy "talos0"
      (fun _ => some (RtError.remoteRejection "boom")) (fun _ => none)
      (fun _ => some (RtError.remoteRejection "deny")) svcWebOld svcWebNew).2.2.1
    [] (newFwdWeb "talos0") [] (RtError.remoteRejection "deny") rfl (by simp) rfl
  rw [happ]
  rfl
